import Mathlib

/-!
Shallow embedding of the camera lifecycle controller of
`virtualcam_app.py` (ConfigManager, CameraManager, SystemTray recovery
logic), with theorems settling the frozen claims about its spec.

External effects (subprocess results, OS process liveness, signal
delivery) are passed in explicitly as parameters, so every embedded
operation is a pure function from its inputs and the ambient outcome of
each external call to its result, successor state and the list of
external actions it performed.
-/

namespace VirtualCam

/-! ## Python string primitives

Faithful models of the string operations the source uses:
`str.split(sep)`, `str.strip()`, `str.startswith`, substring `in`,
and `str.split()[0]`. All are structural recursions over `List Char`
so that concrete instances evaluate by `decide`/`rfl`. -/

/-- Split a character list at every occurrence of `c`
(Python `str.split(sep)` for a one-character separator: keeps empty
pieces, `"".split(sep) == ['']`). -/
def splitCharList (c : Char) : List Char → List (List Char)
  | [] => [[]]
  | x :: xs =>
    match splitCharList c xs with
    | [] => [[]]
    | cur :: rest => if x = c then [] :: cur :: rest else (x :: cur) :: rest

/-- Python `s.split(sep)` for a one-character separator. -/
def pySplit (c : Char) (s : String) : List String :=
  (splitCharList c s.toList).map (fun l => String.mk l)

/-- Python substring membership `pat in s` on character lists. -/
def infixOf (pat : List Char) : List Char → Bool
  | [] => pat.isPrefixOf []
  | x :: xs => pat.isPrefixOf (x :: xs) || infixOf pat xs

/-- Python `pat in s` (substring containment). -/
def strContains (s pat : String) : Bool :=
  infixOf pat.toList s.toList

/-- Python `s.startswith(pre)`. -/
def pyStartswith (s pre : String) : Bool :=
  pre.toList.isPrefixOf s.toList

/-- Python `s.strip()`: drop leading and trailing whitespace. -/
def pyStrip (s : String) : String :=
  String.mk (((s.toList.dropWhile Char.isWhitespace).reverse.dropWhile
    Char.isWhitespace).reverse)

/-- Python `s.split()[0]` on a string whose first character is not
whitespace: the first maximal run of non-whitespace characters. -/
def firstToken (s : String) : String :=
  String.mk ((s.toList.dropWhile Char.isWhitespace).takeWhile
    (fun c => !c.isWhitespace))

/-! ## ConfigManager

`ConfigManager` holds a JSON object (`self.config`). JSON values are
modelled by `JVal`; a JSON object is an association list of fields
(Python dicts have unique keys; insertion preserves order). -/

/-- A JSON value as handled by `ConfigManager` (`json.load` output:
strings, numbers, booleans, null, arrays, objects). -/
inductive JVal where
  | str  : String → JVal
  | num  : Int → JVal
  | bool : Bool → JVal
  | null : JVal
  | arr  : List JVal → JVal
  | obj  : List (String × JVal) → JVal

/-- Fields of a JSON object (a Python dict). -/
abbrev JObj := List (String × JVal)

/-- Python `d[k]` / `k in d` on a dict with unique keys. -/
def lookupField (k : String) : JObj → Option JVal
  | [] => none
  | (k', v) :: rest => if k' = k then some v else lookupField k rest

/-- Python `d[k] = v`: overwrite in place if present, else append
(insertion order, as Python dicts preserve it). -/
def setField (k : String) (v : JVal) : JObj → JObj
  | [] => [(k, v)]
  | (k', v') :: rest =>
    if k' = k then (k, v) :: rest else (k', v') :: setField k v rest

mutual
/-- Model of `ConfigManager._deep_merge(base, update)`: for each field of
`update` in order, recurse when both sides hold dicts, otherwise
overwrite (`mergeEntry` handles one field). Returns the merged dict
(the source mutates `base` in place). -/
def deep_merge : JObj → JObj → JObj
  | base, [] => base
  | base, (k, v) :: rest => deep_merge (mergeEntry base k v) rest
termination_by _ u => sizeOf u
decreasing_by all_goals simp_wf <;> omega

/-- One iteration of the `_deep_merge` loop: if the update value and
the base's value for the key are both dicts, store their recursive
merge, otherwise overwrite with the update value. -/
def mergeEntry : JObj → String → JVal → JObj
  | base, k, JVal.obj uf =>
    match lookupField k base with
    | some (JVal.obj bf) => setField k (JVal.obj (deep_merge bf uf)) base
    | _ => setField k (JVal.obj uf) base
  | base, k, v => setField k v base
termination_by _ _ v => sizeOf v
decreasing_by all_goals simp_wf
end

/-- The `ConfigManager.default_config` dict transliterated from the source. -/
def default_config : JObj :=
  [("virtual_device", JVal.str "/dev/video10"),
   ("virtual_device_label", JVal.str "VirtualCam"),
   ("ffmpeg_params", JVal.obj
      [("framerate", JVal.num 30),
       ("input_format", JVal.str "uyvy422"),
       ("video_size", JVal.str "1280x720"),
       ("output_format", JVal.str "yuv420p")]),
   ("ui", JVal.obj
      [("show_notifications", JVal.bool true),
       ("start_minimized", JVal.bool true),
       ("update_interval", JVal.num 5000)]),
   ("logging", JVal.obj
      [("level", JVal.str "INFO"),
       ("file", JVal.str "~/.config/elgato-virtualcam/virtualcam.log")])]

/-- State of the persisted configuration file when `load_config` runs:
missing, unparseable (`json.load` raises), or parsed into an object. -/
inductive ConfigFile where
  | absent : ConfigFile
  | malformed : ConfigFile
  | parsed : JObj → ConfigFile

/-- Model of `ConfigManager.load_config`: deep-merge the parsed file over a copy
of the defaults; fall back to the defaults when the file is missing or
fails to parse. -/
def load_config : ConfigFile → JObj
  | ConfigFile.absent => default_config
  | ConfigFile.malformed => default_config
  | ConfigFile.parsed user => deep_merge default_config user

/-- Inner loop of `ConfigManager.get`: walk the already-split key list,
descending only through dict values; any miss returns the default. -/
def getKeys (default : Option JVal) : List String → JVal → Option JVal
  | [], v => some v
  | k :: ks, JVal.obj fields =>
    match lookupField k fields with
    | some v => getKeys default ks v
    | none => default
  | _ :: _, _ => default

/-- Model of `ConfigManager.get(key, default)` with dot notation. The result is
`Option JVal` so that Python's `default=None` is `none`. -/
def ConfigManager.get (config : JObj) (key : String)
    (default : Option JVal) : Option JVal :=
  getKeys default (pySplit '.' key) (JVal.obj config)

/-- Inner loop of `ConfigManager.set`: walk `keys[:-1]` creating missing
intermediate dicts, then assign the last key. Descending into (or
assigning on) a non-dict value raises `TypeError` in Python, modelled
as `none`. -/
def setKeys : List String → JVal → JObj → Option JObj
  | [], _, fields => some fields
  | [k], v, fields => some (setField k v fields)
  | k :: ks, v, fields =>
    match lookupField k fields with
    | none =>
      (setKeys ks v []).map (fun sub => setField k (JVal.obj sub) fields)
    | some (JVal.obj sub) =>
      (setKeys ks v sub).map (fun sub' => setField k (JVal.obj sub') fields)
    | some _ => none

/-- Model of `ConfigManager.set(key, value)` with dot notation; `none` when the
traversal hits a non-dict value and Python raises `TypeError`. -/
def ConfigManager.set (config : JObj) (key : String) (v : JVal) :
    Option JObj :=
  setKeys (pySplit '.' key) v config

/-! ## CameraManager: external command plumbing

A `subprocess.run` call either completes (with a return code and
captured stdout) or raises — `TimeoutExpired` on timeout and `OSError`
etc. otherwise; every call site wraps the call in `try/except Exception`
so the two raising causes are indistinguishable to the caller. -/

/-- Outcome of one `subprocess.run` invocation as seen by the caller. -/
inductive RunOutcome where
  | raised : RunOutcome
  | completed : Int → String → RunOutcome

/-! ### Device Locator: `CameraManager.detect_elgato_camera` -/

/-- Condition tested on a pair of adjacent enumeration lines: the first
contains the product name and the second, stripped, starts with the
device-path prefix. -/
def elgatoPairHit (line next : String) : Bool :=
  strContains line "Elgato Facecam" && pyStartswith (pyStrip next) "/dev/video"

/-- The scanning loop of `detect_elgato_camera`: for each index `i`, if
`lines[i]` contains `'Elgato Facecam'`, `i + 1 < len(lines)` and
`lines[i+1].strip()` starts with `'/dev/video'`, return that line's
first token; otherwise keep scanning. -/
def scanLines : List String → Option String
  | line :: next :: rest =>
    if elgatoPairHit line next then some (firstToken (pyStrip next))
    else scanLines (next :: rest)
  | _ => none

/-- Model of `CameraManager.detect_elgato_camera`: run
`v4l2-ctl --list-devices` (timeout 10 s); on return code 0 scan the
stdout lines; on non-zero exit, timeout or any exception return `None`. -/
def detect_elgato_camera : RunOutcome → Option String
  | RunOutcome.raised => none
  | RunOutcome.completed rc stdout =>
    if rc = 0 then scanLines (pySplit '\n' stdout) else none

/-! ### Driver Lifecycle Manager

The only driver state the code consults is whether the `v4l2loopback`
module is loaded; both operations below return
`(result, moduleLoadedAfter, modprobeLoadAttempted)` given the outcomes
of their external commands and the module state before the call.
A completed `modprobe` with exit code 0 loads the module; a completed
`modprobe -r` with exit code 0 unloads it; after a raising command the
model keeps the prior state for `lsmod`/load paths and treats a raising
reload as leaving the module unloaded (the unload already succeeded). -/

/-- Model of `CameraManager.ensure_v4l2loopback_loaded`: `lsmod` (no timeout
argument in the source), no-op success when its stdout mentions
`v4l2loopback`, else `sudo modprobe v4l2loopback ...` (timeout 30 s);
any exception returns `False`. -/
def ensure_v4l2loopback_loaded (lsmodOut loadOut : RunOutcome)
    (loaded : Bool) : Bool × Bool × Bool :=
  match lsmodOut with
  | RunOutcome.raised => (false, loaded, false)
  | RunOutcome.completed _ stdout =>
    if strContains stdout "v4l2loopback" then (true, loaded, false)
    else
      match loadOut with
      | RunOutcome.raised => (false, loaded, true)
      | RunOutcome.completed rc _ =>
        if rc = 0 then (true, true, true) else (false, loaded, true)

/-- Model of `CameraManager.reset_virtual_device`: `sudo modprobe -r v4l2loopback`
(timeout 10 s), aborting with `False` when it fails or raises; then
`sudo modprobe v4l2loopback ...` (timeout 10 s), succeeding only on exit
code 0. Returns `(result, moduleLoadedAfter, reloadAttempted)`. -/
def reset_virtual_device (unloadOut reloadOut : RunOutcome)
    (loaded : Bool) : Bool × Bool × Bool :=
  match unloadOut with
  | RunOutcome.raised => (false, loaded, false)
  | RunOutcome.completed rc _ =>
    if rc ≠ 0 then (false, loaded, false)
    else
      match reloadOut with
      | RunOutcome.raised => (false, false, true)
      | RunOutcome.completed rc2 _ =>
        if rc2 = 0 then (true, true, true) else (false, false, true)

/-- An `lsmod` output reporting the ground truth about the module: it
completed and its stdout mentions `v4l2loopback` exactly when the module
is loaded. -/
def lsmodFaithful (out : RunOutcome) (loaded : Bool) : Prop :=
  ∃ rc stdout, out = RunOutcome.completed rc stdout ∧
    strContains stdout "v4l2loopback" = loaded

/-! ### Blocking external calls and their timeouts

One record per blocking external invocation in `CameraManager`
(`subprocess.run` and `Popen.wait` call sites), with the `timeout=`
argument each passes, in seconds (`none` when the call passes no
timeout). `subprocess.Popen` itself is excluded: spawning returns
immediately and takes no timeout. `<N>` and `<label>` stand for the
configured device number and card label interpolated at run time. -/
structure BlockingCall where
  site : String
  argv : List String
  timeoutSeconds : Option Nat
deriving DecidableEq

/-- The blocking external invocations of `CameraManager`, transliterated
from the source in order of appearance. -/
def cameraManagerBlockingCalls : List BlockingCall :=
  [⟨"detect_elgato_camera.run", ["v4l2-ctl", "--list-devices"], some 10⟩,
   ⟨"ensure_v4l2loopback_loaded.lsmod", ["lsmod"], none⟩,
   ⟨"ensure_v4l2loopback_loaded.modprobe",
     ["sudo", "modprobe", "v4l2loopback", "video_nr=<N>",
      "card_label=<label>", "exclusive_caps=1"], some 30⟩,
   ⟨"reset_virtual_device.unload",
     ["sudo", "modprobe", "-r", "v4l2loopback"], some 10⟩,
   ⟨"reset_virtual_device.reload",
     ["sudo", "modprobe", "v4l2loopback", "video_nr=<N>",
      "card_label=<label>", "exclusive_caps=1"], some 10⟩,
   ⟨"stop_streaming.wait", ["<wait for ffmpeg>"], some 5⟩,
   ⟨"stop_streaming.wait_after_kill", ["<wait for ffmpeg>"], none⟩]

/-- A call carries an explicit timeout between 5 and 30 seconds. -/
def timeoutWithin (c : BlockingCall) : Prop :=
  ∃ t, c.timeoutSeconds = some t ∧ 5 ≤ t ∧ t ≤ 30

instance (c : BlockingCall) : Decidable (timeoutWithin c) := by
  unfold timeoutWithin
  match h : c.timeoutSeconds with
  | none => exact isFalse (by simp [h])
  | some t => exact decidable_of_iff (5 ≤ t ∧ t ≤ 30) (by simp [h])

/-! ### Stream Supervisor: `is_streaming` / `start_streaming` /
`stop_streaming`

`CameraManager` owns at most one ffmpeg process
(`self.ffmpeg_process`) plus the cached detected device path
(`self.elgato_device`). A spawned process is observed through `poll()`:
`alive = true` means `poll()` returns `None`. -/

/-- An owned subprocess as observed at the next `poll()`. -/
structure Proc where
  alive : Bool
  exitCode : Int

/-- The mutable state of `CameraManager`. -/
structure CamState where
  ffmpeg_process : Option Proc
  elgato_device : Option String

/-- Model of `CameraManager.is_streaming`: poll the owned process if any; drop
the handle when the process has exited (lazy reap); report liveness. -/
def is_streaming (s : CamState) : Bool × CamState :=
  match s.ffmpeg_process with
  | some p =>
    if p.alive then (true, s) else (false, { s with ffmpeg_process := none })
  | none => (false, s)

/-- Signals `stop_streaming` attempts to deliver via `os.killpg`. -/
inductive Sig where
  | term : Sig
  | kill : Sig

/-- OS behaviour during one `stop_streaming` call: whether
`os.killpg(..., SIGTERM)` (or the `getpgid` before it) raises, whether
`wait(timeout=5)` times out, and whether `os.killpg(..., SIGKILL)`
raises. -/
structure StopEnv where
  termRaises : Bool
  waitTimesOut : Bool
  killRaises : Bool

/-- Model of `CameraManager.stop_streaming`: no-op success when no handle is
owned; otherwise SIGTERM the process group, wait up to 5 s, escalate to
SIGKILL and wait unconditionally; clear the handle and return `True` on
completion. Any exception is logged and the function returns `False`
with the handle left in place. The third component lists the `killpg`
calls attempted. -/
def stop_streaming (s : CamState) (e : StopEnv) :
    Bool × CamState × List Sig :=
  match s.ffmpeg_process with
  | none => (true, s, [])
  | some _ =>
    if e.termRaises then (false, s, [Sig.term])
    else if !e.waitTimesOut then
      (true, { s with ffmpeg_process := none }, [Sig.term])
    else if e.killRaises then (false, s, [Sig.term, Sig.kill])
    else (true, { s with ffmpeg_process := none }, [Sig.term, Sig.kill])

/-- External effects consumed by one `start_streaming` call, in program
order. `spawn1`/`spawn2` describe the spawned process as observed by
the `poll()` after the 1 s settle sleep; `openOrSpawnRaises` covers the
`open`/`Popen` of an attempt raising (caught by the enclosing
`except`). -/
structure StartEnv where
  detectOut : RunOutcome
  lsmodOut : RunOutcome
  loadOut : RunOutcome
  virtualDeviceExists : Bool
  openOrSpawnRaises : Bool
  spawn1 : Proc
  resetUnloadOut : RunOutcome
  resetReloadOut : RunOutcome
  openOrSpawn2Raises : Bool
  spawn2 : Proc

/-- The externally visible steps `start_streaming` can perform. -/
inductive StartAction where
  | detect : StartAction
  | ensureLoad : StartAction
  | verifyFile : StartAction
  | spawn : StartAction
  | reset : StartAction

/-- The `CameraManager` state together with the kernel module state the
driver-lifecycle commands act on. -/
structure World where
  cam : CamState
  moduleLoaded : Bool

/-- Model of `CameraManager.start_streaming`: no-op success when already
streaming; otherwise detect the camera (fail fast), ensure the module
is loaded (fail fast), verify the virtual device file (fail fast),
spawn ffmpeg and re-check after the settle sleep; if the process died,
reset the virtual device and retry the spawn exactly once. Returns
`(result, world after, actions performed)`. -/
def start_streaming (w : World) (e : StartEnv) :
    Bool × World × List StartAction :=
  let (streaming, s0) := is_streaming w.cam
  if streaming then (true, { w with cam := s0 }, [])
  else
    let dev := detect_elgato_camera e.detectOut
    let s1 := { s0 with elgato_device := dev }
    match dev with
    | none => (false, { w with cam := s1 }, [StartAction.detect])
    | some _ =>
      let (ok, m1, _) :=
        ensure_v4l2loopback_loaded e.lsmodOut e.loadOut w.moduleLoaded
      if !ok then
        (false, ⟨s1, m1⟩, [StartAction.detect, StartAction.ensureLoad])
      else if !e.virtualDeviceExists then
        (false, ⟨s1, m1⟩,
          [StartAction.detect, StartAction.ensureLoad, StartAction.verifyFile])
      else if e.openOrSpawnRaises then
        (false, ⟨s1, m1⟩,
          [StartAction.detect, StartAction.ensureLoad, StartAction.verifyFile])
      else
        let s2 := { s1 with ffmpeg_process := some e.spawn1 }
        if e.spawn1.alive then
          (true, ⟨s2, m1⟩,
            [StartAction.detect, StartAction.ensureLoad,
             StartAction.verifyFile, StartAction.spawn])
        else
          let (rok, m2, _) :=
            reset_virtual_device e.resetUnloadOut e.resetReloadOut m1
          if !rok then
            (false, ⟨s2, m2⟩,
              [StartAction.detect, StartAction.ensureLoad,
               StartAction.verifyFile, StartAction.spawn, StartAction.reset])
          else if e.openOrSpawn2Raises then
            (false, ⟨s2, m2⟩,
              [StartAction.detect, StartAction.ensureLoad,
               StartAction.verifyFile, StartAction.spawn, StartAction.reset])
          else
            let s3 := { s1 with ffmpeg_process := some e.spawn2 }
            (e.spawn2.alive, ⟨s3, m2⟩,
              [StartAction.detect, StartAction.ensureLoad,
               StartAction.verifyFile, StartAction.spawn, StartAction.reset,
               StartAction.spawn])

/-- A concrete idle world: no owned process, module unloaded. -/
def wit9 : World := ⟨⟨none, none⟩, false⟩

/-- A concrete `start_streaming` environment whose enumeration output
does not mention the camera. -/
def env9 : StartEnv :=
  ⟨RunOutcome.completed 0 "USB Video (usb-0000:00:14.0-1):\n\t/dev/video3\n",
   RunOutcome.completed 0 "", RunOutcome.completed 0 "", true, false,
   ⟨true, 0⟩, RunOutcome.completed 0 "", RunOutcome.completed 0 "", false,
   ⟨true, 0⟩⟩

/-! ### Status Monitor: `SystemTray.update_status` recovery logic

`SystemTray.get_status` classifies each tick as `'on'` (streaming),
`'error'` (degraded: virtual device file missing, or camera not found)
or `'off'` (ready). `update_status` keeps `_consecutive_errors`, with
`_max_consecutive_errors = 3` fixed in `__init__`. -/

/-- A status classification as produced by `SystemTray.get_status`. -/
inductive TrayStatus where
  | on : TrayStatus
  | off : TrayStatus
  | error : TrayStatus
deriving DecidableEq

/-- Model of `SystemTray.get_status`, classification order: streaming wins, then
a missing virtual device file degrades, then a missing camera degrades,
else ready. -/
def get_status (streaming deviceExists cameraFound : Bool) : TrayStatus :=
  if streaming then TrayStatus.on
  else if !deviceExists then TrayStatus.error
  else if cameraFound then TrayStatus.off
  else TrayStatus.error

/-- Recovery bookkeeping of one `SystemTray.update_status` tick: on
`'error'` increment `_consecutive_errors` and, once it reaches 3,
call `attempt_recovery()` once and reset the counter to 0 regardless of
the recovery's outcome; on any other status reset the counter to 0.
Returns `(counter after, recovery invoked this tick)`. -/
def update_status_counter (c : Nat) (st : TrayStatus) : Nat × Bool :=
  match st with
  | TrayStatus.error =>
    if c + 1 ≥ 3 then (0, true) else (c + 1, false)
  | _ => (0, false)

/-- Fold `update_status_counter` over a sequence of ticks, returning
the final counter and the total number of recovery invocations. -/
def run_monitor (c : Nat) : List TrayStatus → Nat × Nat
  | [] => (c, 0)
  | st :: rest =>
    let step := update_status_counter c st
    let tail := run_monitor step.1 rest
    (tail.1, (if step.2 then 1 else 0) + tail.2)

/-! ### Path predicates over the configuration tree

Used to state which dotted keys the accessors handle in which way. -/

/-- The traversal of the key list reaches a value that is not a dict
while keys remain: the case in which Python `get` takes its `else`
branch because of a non-dict, and `set` raises `TypeError`. -/
def pathBlocked : List String → JVal → Bool
  | [], _ => false
  | k :: ks, JVal.obj fields =>
    match lookupField k fields with
    | some v => pathBlocked ks v
    | none => false
  | _ :: _, _ => true

/-- Some component of the key list is missing from the dict it is
looked up in (every level reached up to that point is a dict). -/
def pathMissing : List String → JVal → Bool
  | [], _ => false
  | k :: ks, JVal.obj fields =>
    match lookupField k fields with
    | some v => pathMissing ks v
    | none => true
  | _ :: _, _ => false

/-- Every intermediate component of the key list that already exists
resolves to a dict (missing components may be auto-created), so
`ConfigManager.set` completes without raising. -/
def pathCreatable : List String → JObj → Bool
  | [], _ => true
  | [_], _ => true
  | k :: ks, fields =>
    match lookupField k fields with
    | none => true
    | some (JVal.obj sub) => pathCreatable ks sub
    | some _ => false

/-- The value `_deep_merge` stores for a key of `update`, given what
`base` holds there: merge recursively when both sides are dicts,
otherwise the update's value. -/
def mergeVal : Option JVal → JVal → JVal
  | some (JVal.obj bf), JVal.obj uf => JVal.obj (deep_merge bf uf)
  | _, v => v

/-- A dict and its fields: Python dict keys are unique. -/
abbrev NodupKeys (o : JObj) : Prop := (o.map Prod.fst).Nodup

/-- Condition on a line list and an index: `lines[i]` contains the
product name, `i + 1` is in range, and `lines[i+1].strip()` starts with
the device-path marker — the exact test of the detection loop. -/
def hitAt (ls : List String) (i : Nat) : Bool :=
  decide (i + 1 < ls.length) && elgatoPairHit (ls.getD i "") (ls.getD (i + 1) "")

/-- An enumeration output in which the product name is on one line, the
following line is empty, and the device path only appears on the line
after that. -/
def ex3 : String := "Elgato Facecam (usb-0000:00:14.0-2):\n\n/dev/video0"

theorem get_framerate_default_example :
    ConfigManager.get default_config "ffmpeg_params.framerate" none
      = some (JVal.num 30) := by rfl

theorem set_nested_example :
    ConfigManager.set default_config "a.b.c" (JVal.num 7)
      = some (setField "a" (JVal.obj [("b", JVal.obj [("c", JVal.num 7)])])
          default_config) := by rfl

theorem pySplit_newline_example :
    pySplit '\n' "a\nb" = ["a", "b"] := by decide

theorem strContains_example :
    strContains "xx Elgato Facecam yy" "Elgato Facecam" = true := by decide

theorem pyStrip_example :
    pyStrip "  /dev/video0 (x)  " = "/dev/video0 (x)" := by decide

theorem firstToken_example :
    firstToken "/dev/video0 (Elgato)" = "/dev/video0" := by decide

/-- C2: the consecutive-failure counter increments only on a degraded
(`'error'`) classification and is reset to zero by any non-degraded
classification; when the incremented counter reaches the threshold 3
the tick invokes exactly one recovery action and resets the counter to
zero (the counter update never consults the recovery's outcome); in
particular three consecutive degraded ticks from 0 trigger exactly one
recovery, and a ready tick between two runs of two degraded ticks
triggers none. -/
theorem claim_C2_monitor_counter :
    (∀ c st, st ≠ TrayStatus.error → update_status_counter c st = (0, false)) ∧
    (∀ c, c + 1 < 3 → update_status_counter c TrayStatus.error = (c + 1, false)) ∧
    (∀ c, 3 ≤ c + 1 → update_status_counter c TrayStatus.error = (0, true)) ∧
    run_monitor 0 [TrayStatus.error, TrayStatus.error, TrayStatus.error]
      = (0, 1) ∧
    run_monitor 0 [TrayStatus.error, TrayStatus.error, TrayStatus.off,
      TrayStatus.error, TrayStatus.error] = (2, 0) := by
  refine ⟨?_, ?_, ?_, by decide, by decide⟩
  · intro c st h
    cases st <;> simp_all [update_status_counter]
  · intro c h
    simp [update_status_counter, Nat.not_le.mpr h]
  · intro c h
    simp [update_status_counter, h]

/-- Witness for C2 at concrete counters and classifications. -/
theorem claim_C2_monitor_counter_witness :
    update_status_counter 5 TrayStatus.on = (0, false) ∧
    update_status_counter 0 TrayStatus.error = (1, false) ∧
    update_status_counter 2 TrayStatus.error = (0, true) :=
  ⟨claim_C2_monitor_counter.1 5 TrayStatus.on (by decide),
   claim_C2_monitor_counter.2.1 0 (by decide),
   claim_C2_monitor_counter.2.2.1 2 (by decide)⟩

/-- C8: `start_streaming` called while the owned process is alive is a
no-op returning `True` (no external action, state unchanged), and
`stop_streaming` on an idle supervisor returns `True` without
attempting any `killpg` call and without changing state; hence repeated
`start` (or repeated `stop`) leaves the supervisor state unchanged. -/
theorem claim_C8_idempotence :
    (∀ w e p, w.cam.ffmpeg_process = some p → p.alive = true →
      start_streaming w e = (true, w, [])) ∧
    (∀ s e, s.ffmpeg_process = none → stop_streaming s e = (true, s, [])) := by
  constructor
  · intro w e p hp halive
    simp [start_streaming, is_streaming, hp, halive]
  · intro s e hnone
    simp [stop_streaming, hnone]

/-- Witness for C8: a live handle and an idle supervisor. -/
theorem claim_C8_idempotence_witness :
    start_streaming
        ⟨⟨some ⟨true, 0⟩, some "/dev/video0"⟩, true⟩
        ⟨RunOutcome.raised, RunOutcome.raised, RunOutcome.raised, true,
         false, ⟨true, 0⟩, RunOutcome.raised, RunOutcome.raised, false,
         ⟨true, 0⟩⟩
      = (true, ⟨⟨some ⟨true, 0⟩, some "/dev/video0"⟩, true⟩, []) ∧
    stop_streaming ⟨none, none⟩ ⟨true, true, true⟩ = (true, ⟨none, none⟩, []) :=
  ⟨claim_C8_idempotence.1 ⟨⟨some ⟨true, 0⟩, some "/dev/video0"⟩, true⟩ _
      ⟨true, 0⟩ rfl rfl,
   claim_C8_idempotence.2 ⟨none, none⟩ ⟨true, true, true⟩ rfl⟩

/-- C9: when the supervisor is not currently streaming and the device
locator cannot find the camera, `start_streaming` fails having
performed only the detection step: no driver load, no device-file
check, no spawn, no reset; the owned handle stays empty. -/
theorem claim_C9_detect_short_circuit :
    ∀ w e, (is_streaming w.cam).1 = false →
      detect_elgato_camera e.detectOut = none →
      (start_streaming w e).1 = false ∧
      (start_streaming w e).2.2 = [StartAction.detect] ∧
      (start_streaming w e).2.1.cam.ffmpeg_process = none := by
  intro w e hidle hdetect
  match hs : w.cam.ffmpeg_process with
  | none =>
    simp [start_streaming, is_streaming, hs, hdetect]
  | some p =>
    have hdead : p.alive = false := by
      by_contra h
      rw [Bool.not_eq_false] at h
      simp [is_streaming, hs, h] at hidle
    simp [start_streaming, is_streaming, hs, hdead, hdetect]

/-- Witness for C9: idle supervisor, enumeration output without the
product name. -/
theorem claim_C9_detect_short_circuit_witness :
    (start_streaming wit9 env9).1 = false ∧
    (start_streaming wit9 env9).2.2 = [StartAction.detect] ∧
    (start_streaming wit9 env9).2.1.cam.ffmpeg_process = none :=
  claim_C9_detect_short_circuit wit9 env9 rfl rfl

/-- C5: `reset_virtual_device` aborts with `False` and never attempts
the reload when the unload command fails or raises, leaving the module
state untouched; and whenever it returns `True` the module is loaded
afterwards, so a following `ensure_v4l2loopback_loaded` whose `lsmod`
reports that ground truth is a no-op returning `True` without
attempting a load. -/
theorem claim_C5_reset :
    (∀ loaded reloadOut unloadOut,
      (unloadOut = RunOutcome.raised ∨
        ∃ rc out, unloadOut = RunOutcome.completed rc out ∧ rc ≠ 0) →
      reset_virtual_device unloadOut reloadOut loaded
        = (false, loaded, false)) ∧
    (∀ unloadOut reloadOut loaded,
      (reset_virtual_device unloadOut reloadOut loaded).1 = true →
      (reset_virtual_device unloadOut reloadOut loaded).2.1 = true ∧
      ∀ lsmodOut loadOut, lsmodFaithful lsmodOut true →
        ensure_v4l2loopback_loaded lsmodOut loadOut true
          = (true, true, false)) := by
  constructor
  · rintro loaded reloadOut unloadOut (rfl | ⟨rc, out, rfl, hrc⟩)
    · rfl
    · simp [reset_virtual_device, hrc]
  · intro unloadOut reloadOut loaded hres
    constructor
    · match unloadOut with
      | RunOutcome.raised => simp [reset_virtual_device] at hres
      | RunOutcome.completed rc out =>
        by_cases hrc : rc = 0
        · match reloadOut with
          | RunOutcome.raised => simp [reset_virtual_device, hrc] at hres
          | RunOutcome.completed rc2 out2 =>
            by_cases hrc2 : rc2 = 0
            · simp [reset_virtual_device, hrc, hrc2]
            · simp [reset_virtual_device, hrc, hrc2] at hres
        · simp [reset_virtual_device, hrc] at hres
    · rintro lsmodOut loadOut ⟨rc, stdout, rfl, hcontains⟩
      simp [ensure_v4l2loopback_loaded, hcontains]

/-- Witness for C5: a failing unload at one concrete outcome, and a
successful reset followed by a faithful `lsmod`. -/
theorem claim_C5_reset_witness :
    reset_virtual_device (RunOutcome.completed 1 "") RunOutcome.raised true
      = (false, true, false) ∧
    ((reset_virtual_device (RunOutcome.completed 0 "")
        (RunOutcome.completed 0 "") false).2.1 = true ∧
      ∀ lsmodOut loadOut, lsmodFaithful lsmodOut true →
        ensure_v4l2loopback_loaded lsmodOut loadOut true
          = (true, true, false)) :=
  ⟨claim_C5_reset.1 true RunOutcome.raised (RunOutcome.completed 1 "")
      (Or.inr ⟨1, "", rfl, by decide⟩),
   claim_C5_reset.2 (RunOutcome.completed 0 "") (RunOutcome.completed 0 "")
      false rfl⟩

/-! ### Helper lemmas about dict primitives -/

theorem lookupField_setField_self (k : String) (v : JVal) (fields : JObj) :
    lookupField k (setField k v fields) = some v := by
  induction fields with
  | nil => simp [setField, lookupField]
  | cons kv rest ih =>
    obtain ⟨k', v'⟩ := kv
    by_cases h : k' = k <;> simp [setField, lookupField, h, ih]

theorem lookupField_setField_ne (k k' : String) (v : JVal) (fields : JObj)
    (h : k' ≠ k) : lookupField k (setField k' v fields) = lookupField k fields := by
  induction fields with
  | nil => simp [setField, lookupField, h]
  | cons kv rest ih =>
    obtain ⟨k'', v''⟩ := kv
    by_cases h2 : k'' = k'
    · subst h2
      simp [setField, lookupField, h]
    · by_cases h3 : k'' = k <;>
        simp [setField, lookupField, h, Ne.symm h, h2, h3, ih]

theorem lookupField_eq_none_of_not_mem (k : String) (fields : JObj)
    (h : k ∉ fields.map Prod.fst) : lookupField k fields = none := by
  induction fields with
  | nil => rfl
  | cons kv rest ih =>
    obtain ⟨k', v'⟩ := kv
    have h1 : k ≠ k' := fun e => h (by simp [e])
    have h2 : k ∉ rest.map Prod.fst := fun e => h (by simp [e])
    simp [lookupField, Ne.symm h1, ih h2]

theorem getKeys_cons_obj (d : Option JVal) (k : String) (ks : List String)
    (fields : JObj) (v : JVal) (h : lookupField k fields = some v) :
    getKeys d (k :: ks) (JVal.obj fields) = getKeys d ks v := by
  simp only [getKeys, h]

theorem splitCharList_ne_nil (c : Char) (l : List Char) :
    splitCharList c l ≠ [] := by
  induction l with
  | nil => simp [splitCharList]
  | cons x xs ih =>
    rw [splitCharList]
    match h : splitCharList c xs with
    | [] => simp
    | cur :: rest => by_cases hx : x = c <;> simp [hx]

theorem pySplit_ne_nil (c : Char) (s : String) : pySplit c s ≠ [] := by
  intro h
  exact splitCharList_ne_nil c s.toList (List.map_eq_nil_iff.mp h)

theorem deep_merge_nil (base : JObj) : deep_merge base [] = base := by
  rw [deep_merge]

theorem mergeEntry_eq (base : JObj) (k : String) (v : JVal) :
    mergeEntry base k v = setField k (mergeVal (lookupField k base) v) base := by
  match v with
  | JVal.obj uf =>
    rw [mergeEntry]
    cases hb : lookupField k base with
    | none => simp [mergeVal]
    | some b => cases b <;> simp [mergeVal]
  | JVal.str s => rw [mergeEntry] <;> simp [mergeVal]
  | JVal.num n => rw [mergeEntry] <;> simp [mergeVal]
  | JVal.bool b => rw [mergeEntry] <;> simp [mergeVal]
  | JVal.null => rw [mergeEntry] <;> simp [mergeVal]
  | JVal.arr a => rw [mergeEntry] <;> simp [mergeVal]

theorem deep_merge_cons (base : JObj) (k : String) (v : JVal) (rest : JObj) :
    deep_merge base ((k, v) :: rest)
      = deep_merge (setField k (mergeVal (lookupField k base) v) base) rest := by
  rw [deep_merge, mergeEntry_eq]

theorem lookupField_deep_merge_absent :
    ∀ (update base : JObj) (k : String), lookupField k update = none →
      lookupField k (deep_merge base update) = lookupField k base := by
  intro update
  induction update with
  | nil => intro base k _; rw [deep_merge_nil]
  | cons kv rest ih =>
    obtain ⟨k', v'⟩ := kv
    intro base k h
    have hne : k' ≠ k := by
      intro e
      simp [lookupField, e] at h
    have hrest : lookupField k rest = none := by
      simpa [lookupField, hne] using h
    rw [deep_merge_cons, ih _ k hrest, lookupField_setField_ne k k' _ _ hne]

theorem lookupField_deep_merge_present :
    ∀ (update base : JObj) (k : String) (v : JVal), NodupKeys update →
      lookupField k update = some v →
      lookupField k (deep_merge base update)
        = some (mergeVal (lookupField k base) v) := by
  intro update
  induction update with
  | nil => intro base k v _ h; cases h
  | cons kv rest ih =>
    obtain ⟨k', v'⟩ := kv
    intro base k v hnd h
    unfold NodupKeys at hnd
    rw [List.map_cons, List.nodup_cons] at hnd
    by_cases he : k' = k
    · subst he
      have hv : v' = v := by simpa [lookupField] using h
      subst hv
      have hrest : lookupField k' rest = none :=
        lookupField_eq_none_of_not_mem _ _ hnd.1
      rw [deep_merge_cons, lookupField_deep_merge_absent rest _ k' hrest,
        lookupField_setField_self]
    · have hrest : lookupField k rest = some v := by
        simpa [lookupField, he] using h
      rw [deep_merge_cons, ih _ k v hnd.2 hrest,
        lookupField_setField_ne k k' _ base he]

/-- C1 counterexample: with an owned process and an OS-level error on
the SIGTERM `killpg` (process group already gone), `stop_streaming`
returns `False` — not success — and the handle is not cleared, contrary
to the claim. -/
theorem claim_C1_counterexample :
    stop_streaming ⟨some ⟨true, 0⟩, none⟩ ⟨true, false, false⟩
      = (false, ⟨some ⟨true, 0⟩, none⟩, [Sig.term]) := rfl

/-- C1 amended: if `stop_streaming` encounters an OS-level error while
signalling (or while force-killing after the graceful wait timed out),
the error is logged and `stop_streaming` returns failure with the
handle left in place; a subsequent `is_streaming` still reports the
ground truth because it re-polls the process and reaps it lazily. -/
theorem claim_C1_stop_error :
    ∀ s e p, s.ffmpeg_process = some p →
      (e.termRaises = true ∨ (e.waitTimesOut = true ∧ e.killRaises = true)) →
      (stop_streaming s e).1 = false ∧
      (stop_streaming s e).2.1 = s ∧
      (is_streaming (stop_streaming s e).2.1).1 = p.alive := by
  rintro s e p hp h
  have hstop : stop_streaming s e = (false, s, [Sig.term]) ∨
      stop_streaming s e = (false, s, [Sig.term, Sig.kill]) := by
    rcases h with hterm | ⟨hwait, hkill⟩
    · left; simp [stop_streaming, hp, hterm]
    · by_cases hterm : e.termRaises = true
      · left; simp [stop_streaming, hp, hterm]
      · right; simp [stop_streaming, hp, hterm, hwait, hkill]
  have hstreams : (is_streaming s).1 = p.alive := by
    cases hpa : p.alive <;> simp [is_streaming, hp, hpa]
  rcases hstop with h2 | h2 <;> rw [h2] <;> exact ⟨rfl, rfl, hstreams⟩

/-- Witness for C1 amended: concrete owned process, SIGTERM raises. -/
theorem claim_C1_stop_error_witness :
    (stop_streaming ⟨some ⟨false, 1⟩, none⟩ ⟨true, false, false⟩).1 = false ∧
    (stop_streaming ⟨some ⟨false, 1⟩, none⟩ ⟨true, false, false⟩).2.1
      = ⟨some ⟨false, 1⟩, none⟩ ∧
    (is_streaming
        (stop_streaming ⟨some ⟨false, 1⟩, none⟩ ⟨true, false, false⟩).2.1).1
      = (Proc.mk false 1).alive :=
  claim_C1_stop_error ⟨some ⟨false, 1⟩, none⟩ ⟨true, false, false⟩
    ⟨false, 1⟩ rfl (Or.inl rfl)

/-- C10: `ConfigManager.get` is total — when a proper prefix of the
dotted key resolves to a non-dict value, the remaining lookup falls
into the guarded `else` branch and the call returns the default instead
of raising; in particular `get('virtual_device.x', d) == d` on the
default configuration, where `virtual_device` holds a string. -/
theorem claim_C10_get_total :
    (∀ ks v d, pathBlocked ks v = true → getKeys d ks v = d) ∧
    (∀ config key d,
      pathBlocked (pySplit '.' key) (JVal.obj config) = true →
      ConfigManager.get config key d = d) ∧
    ConfigManager.get default_config "virtual_device.x"
        (some (JVal.str "dflt")) = some (JVal.str "dflt") := by
  have hgen : ∀ ks (v : JVal) d, pathBlocked ks v = true → getKeys d ks v = d := by
    intro ks
    induction ks with
    | nil => intro v d h; simp [pathBlocked] at h
    | cons k ks ih =>
      intro v d h
      match v with
      | JVal.obj fields =>
        rw [pathBlocked] at h
        match hl : lookupField k fields with
        | some v' =>
          rw [hl] at h
          simp [getKeys, hl, ih v' d h]
        | none => rw [hl] at h; simp at h
      | JVal.str s => simp [getKeys]
      | JVal.num n => simp [getKeys]
      | JVal.bool b => simp [getKeys]
      | JVal.null => simp [getKeys]
      | JVal.arr a => simp [getKeys]
  exact ⟨hgen, fun config key d h => hgen _ _ d h, rfl⟩

/-- Witness for C10 at the key `virtual_device.x` over the default
configuration. -/
theorem claim_C10_get_total_witness :
    ConfigManager.get default_config "virtual_device.x" none = none :=
  claim_C10_get_total.2.1 default_config "virtual_device.x" none rfl

/-- C4 counterexample: not every blocking external invocation of
`CameraManager` carries an explicit timeout — the loaded-module listing
(`lsmod`) in `ensure_v4l2loopback_loaded` passes no `timeout=` argument
(and neither does the wait following the forced kill). -/
theorem claim_C4_counterexample :
    ¬ ∀ c ∈ cameraManagerBlockingCalls, timeoutWithin c := by decide

/-- C4 amended: every blocking external invocation of `CameraManager`
except the module-listing `lsmod` call in `ensure_v4l2loopback_loaded`
(no timeout argument) and the unconditional wait after a forced kill
carries an explicit timeout between 5 and 30 seconds; and a timeout
(which raises, like any command exception) leads to the same result as
a failing command at each call site. -/
theorem claim_C4_timeouts :
    (∀ c ∈ cameraManagerBlockingCalls,
      c.site ≠ "ensure_v4l2loopback_loaded.lsmod" →
      c.site ≠ "stop_streaming.wait_after_kill" →
      timeoutWithin c) ∧
    (detect_elgato_camera RunOutcome.raised
      = detect_elgato_camera (RunOutcome.completed 1 "")) ∧
    (∀ m loadOut,
      (ensure_v4l2loopback_loaded RunOutcome.raised loadOut m).1 = false) ∧
    (∀ m out, strContains out "v4l2loopback" = false →
      (ensure_v4l2loopback_loaded (RunOutcome.completed 0 out)
          RunOutcome.raised m).1
        = (ensure_v4l2loopback_loaded (RunOutcome.completed 0 out)
            (RunOutcome.completed 1 "") m).1) ∧
    (∀ m reloadOut,
      (reset_virtual_device RunOutcome.raised reloadOut m).1
        = (reset_virtual_device (RunOutcome.completed 1 "") reloadOut m).1) ∧
    (∀ m,
      (reset_virtual_device (RunOutcome.completed 0 "") RunOutcome.raised m).1
        = (reset_virtual_device (RunOutcome.completed 0 "")
            (RunOutcome.completed 1 "") m).1) := by
  refine ⟨by decide, rfl, fun m loadOut => rfl, ?_, ?_, fun m => rfl⟩
  · intro m out h
    simp [ensure_v4l2loopback_loaded, h]
  · intro m reloadOut
    simp [reset_virtual_device]

/-- Witness for C4 amended at the device-enumeration call and a
concrete failed module check. -/
theorem claim_C4_timeouts_witness :
    timeoutWithin
      ⟨"detect_elgato_camera.run", ["v4l2-ctl", "--list-devices"], some 10⟩ ∧
    (ensure_v4l2loopback_loaded (RunOutcome.completed 0 "snd_usb 1")
        RunOutcome.raised false).1
      = (ensure_v4l2loopback_loaded (RunOutcome.completed 0 "snd_usb 1")
          (RunOutcome.completed 1 "") false).1 :=
  ⟨claim_C4_timeouts.1
      ⟨"detect_elgato_camera.run", ["v4l2-ctl", "--list-devices"], some 10⟩
      (by decide) (by decide) (by decide),
   claim_C4_timeouts.2.2.2.1 false "snd_usb 1" rfl⟩

/-- C7 counterexample: `set` is not defined for every dotted key — on
the default configuration, `set('virtual_device.x', 1)` raises
`TypeError` (the existing intermediate `virtual_device` holds a
string), so no configuration results and no subsequent `get` can return
the value. -/
theorem claim_C7_counterexample :
    ConfigManager.set default_config "virtual_device.x" (JVal.num 1) = none ∧
    ¬ ∃ config2,
        ConfigManager.set default_config "virtual_device.x" (JVal.num 1)
          = some config2 := by
  refine ⟨rfl, ?_⟩
  rintro ⟨c2, h⟩
  rw [show ConfigManager.set default_config "virtual_device.x" (JVal.num 1)
        = none from rfl] at h
  cases h

/-- C7 amended: for every dotted key all of whose already-present
intermediate levels are mappings (missing ones are auto-created),
`set(k, v)` succeeds and a subsequent `get(k)` returns `v`; and for
every dotted key some component of which is missing from the
configuration, `get(k, default)` returns the default rather than
failing. -/
theorem claim_C7_set_get :
    (∀ ks (v : JVal) (config : JObj) (d : Option JVal), ks ≠ [] →
      pathCreatable ks config = true →
      ∃ config2, setKeys ks v config = some config2 ∧
        getKeys d ks (JVal.obj config2) = some v) ∧
    (∀ ks (v : JVal) (d : Option JVal), pathMissing ks v = true →
      getKeys d ks v = d) ∧
    (∀ config key v d, pathCreatable (pySplit '.' key) config = true →
      ∃ config2, ConfigManager.set config key v = some config2 ∧
        ConfigManager.get config2 key d = some v) := by
  have hset : ∀ ks (v : JVal) (config : JObj) (d : Option JVal), ks ≠ [] →
      pathCreatable ks config = true →
      ∃ config2, setKeys ks v config = some config2 ∧
        getKeys d ks (JVal.obj config2) = some v := by
    intro ks
    induction ks with
    | nil => intro v config d h; exact absurd rfl h
    | cons k ks ih =>
      intro v config d _ hcr
      cases ks with
      | nil =>
        refine ⟨setField k v config, rfl, ?_⟩
        rw [getKeys_cons_obj d k [] _ v (lookupField_setField_self k v config)]
        rfl
      | cons k2 ks2 =>
        cases hl : lookupField k config with
        | none =>
          have hcr0 : pathCreatable (k2 :: ks2) [] = true := by
            cases ks2 <;> simp [pathCreatable, lookupField]
          obtain ⟨sub, hs, hg⟩ := ih v [] d (by simp) hcr0
          refine ⟨setField k (JVal.obj sub) config, ?_, ?_⟩
          · simp [setKeys, hl, hs]
          · rw [getKeys_cons_obj d k (k2 :: ks2) _ _
                  (lookupField_setField_self k (JVal.obj sub) config)]
            exact hg
        | some v' =>
          match v' with
          | JVal.obj sub =>
            simp only [pathCreatable] at hcr
            rw [hl] at hcr
            obtain ⟨sub2, hs, hg⟩ := ih v sub d (by simp) hcr
            refine ⟨setField k (JVal.obj sub2) config, ?_, ?_⟩
            · simp [setKeys, hl, hs]
            · rw [getKeys_cons_obj d k (k2 :: ks2) _ _
                    (lookupField_setField_self k (JVal.obj sub2) config)]
              exact hg
          | JVal.str s => simp only [pathCreatable] at hcr; rw [hl] at hcr; simp at hcr
          | JVal.num n => simp only [pathCreatable] at hcr; rw [hl] at hcr; simp at hcr
          | JVal.bool b => simp only [pathCreatable] at hcr; rw [hl] at hcr; simp at hcr
          | JVal.null => simp only [pathCreatable] at hcr; rw [hl] at hcr; simp at hcr
          | JVal.arr a => simp only [pathCreatable] at hcr; rw [hl] at hcr; simp at hcr
  have hmiss : ∀ ks (v : JVal) (d : Option JVal), pathMissing ks v = true →
      getKeys d ks v = d := by
    intro ks
    induction ks with
    | nil => intro v d h; simp [pathMissing] at h
    | cons k ks ih =>
      intro v d h
      match v with
      | JVal.obj fields =>
        simp only [pathMissing] at h
        cases hl : lookupField k fields with
        | none => simp [getKeys, hl]
        | some v' =>
          rw [hl] at h
          simp [getKeys, hl, ih v' d h]
      | JVal.str s => simp [pathMissing] at h
      | JVal.num n => simp [pathMissing] at h
      | JVal.bool b => simp [pathMissing] at h
      | JVal.null => simp [pathMissing] at h
      | JVal.arr a => simp [pathMissing] at h
  exact ⟨hset, hmiss,
    fun config key v d hcr =>
      hset (pySplit '.' key) v config d (pySplit_ne_nil '.' key) hcr⟩

/-- Witness for C7 amended: `set('a.b.c', 7)` on the default
configuration succeeds (intermediate levels auto-created) and
`get('a.b.c')` returns 7; `get('missing.key', d)` returns `d`. -/
theorem claim_C7_set_get_witness :
    (∃ config2,
      ConfigManager.set default_config "a.b.c" (JVal.num 7) = some config2 ∧
      ConfigManager.get config2 "a.b.c" none = some (JVal.num 7)) ∧
    getKeys (some (JVal.str "d")) ["missing", "key"]
        (JVal.obj default_config) = some (JVal.str "d") :=
  ⟨claim_C7_set_get.2.2 default_config "a.b.c" (JVal.num 7) none rfl,
   claim_C7_set_get.2.1 ["missing", "key"] (JVal.obj default_config)
     (some (JVal.str "d")) rfl⟩

/-- C6: loading a parsed partial configuration deep-merges it over the
compiled-in defaults: a top-level key absent from the file keeps the
default's value; a key present in the file takes the file's value,
recursively merged when both sides hold mappings (`mergeVal`); in
particular a file containing only `virtual_device = /dev/video15`
yields `get('ffmpeg_params.framerate') == 30` and
`get('virtual_device') == '/dev/video15'`. -/
theorem claim_C6_load_merge :
    (∀ (update base : JObj) (k : String), lookupField k update = none →
      lookupField k (deep_merge base update) = lookupField k base) ∧
    (∀ (update base : JObj) (k : String) (v : JVal), NodupKeys update →
      lookupField k update = some v →
      lookupField k (deep_merge base update)
        = some (mergeVal (lookupField k base) v)) ∧
    ConfigManager.get
        (load_config (ConfigFile.parsed
          [("virtual_device", JVal.str "/dev/video15")]))
        "ffmpeg_params.framerate" none = some (JVal.num 30) ∧
    ConfigManager.get
        (load_config (ConfigFile.parsed
          [("virtual_device", JVal.str "/dev/video15")]))
        "virtual_device" none = some (JVal.str "/dev/video15") := by
  have hload : load_config (ConfigFile.parsed
        [("virtual_device", JVal.str "/dev/video15")])
      = setField "virtual_device" (JVal.str "/dev/video15") default_config := by
    show deep_merge default_config [("virtual_device", JVal.str "/dev/video15")]
        = _
    rw [deep_merge_cons, deep_merge_nil]
    rfl
  refine ⟨lookupField_deep_merge_absent, lookupField_deep_merge_present, ?_, ?_⟩
  · rw [hload]; rfl
  · rw [hload]; rfl

/-- Witness for C6: a key absent from a concrete update keeps the base
value, and the one key of the example file takes the file's value. -/
theorem claim_C6_load_merge_witness :
    lookupField "ffmpeg_params"
        (deep_merge default_config [("virtual_device", JVal.str "/dev/video15")])
      = lookupField "ffmpeg_params" default_config ∧
    lookupField "virtual_device"
        (deep_merge default_config [("virtual_device", JVal.str "/dev/video15")])
      = some (mergeVal (lookupField "virtual_device" default_config)
          (JVal.str "/dev/video15")) :=
  ⟨claim_C6_load_merge.1 [("virtual_device", JVal.str "/dev/video15")]
      default_config "ffmpeg_params" rfl,
   claim_C6_load_merge.2.1 [("virtual_device", JVal.str "/dev/video15")]
      default_config "virtual_device" (JVal.str "/dev/video15")
      (by decide) rfl⟩

/-! ### Lemmas about the detection scan -/

theorem hitAt_nil (i : Nat) : hitAt [] i = false := by
  simp [hitAt]

theorem hitAt_single (l : String) (i : Nat) : hitAt [l] i = false := by
  have h1 : ¬ (i + 1 < 1) := by omega
  simp [hitAt, h1]

theorem hitAt_cons_cons_zero (l next : String) (rest : List String) :
    hitAt (l :: next :: rest) 0 = elgatoPairHit l next := by
  have h1 : 0 + 1 < (l :: next :: rest).length := by simp
  simp [hitAt, h1]

theorem hitAt_cons_succ (l : String) (ls : List String) (i : Nat) :
    hitAt (l :: ls) (i + 1) = hitAt ls i := by
  simp [hitAt, List.getD_cons_succ, Nat.succ_lt_succ_iff]

theorem scanLines_eq_none_iff :
    ∀ ls : List String, scanLines ls = none ↔ ∀ i, hitAt ls i = false := by
  intro ls
  induction ls with
  | nil =>
    constructor
    · intro _ i; exact hitAt_nil i
    · intro _; rfl
  | cons l rest ih =>
    cases rest with
    | nil =>
      constructor
      · intro _ i; exact hitAt_single l i
      · intro _; rfl
    | cons next rest2 =>
      by_cases h : elgatoPairHit l next = true
      · constructor
        · intro hnone
          rw [scanLines, if_pos h] at hnone
          cases hnone
        · intro hall
          have h0 := hall 0
          rw [hitAt_cons_cons_zero, h] at h0
          cases h0
      · rw [scanLines, if_neg h, ih]
        have h' : elgatoPairHit l next = false := by
          cases hh : elgatoPairHit l next
          · rfl
          · exact absurd hh h
        constructor
        · intro hall i
          cases i with
          | zero => rw [hitAt_cons_cons_zero]; exact h'
          | succ j => rw [hitAt_cons_succ]; exact hall j
        · intro hall j
          have hj := hall (j + 1)
          rwa [hitAt_cons_succ] at hj

theorem scanLines_eq_some :
    ∀ (ls : List String) (d : String), scanLines ls = some d →
      ∃ i, hitAt ls i = true ∧ (∀ j, j < i → hitAt ls j = false) ∧
        d = firstToken (pyStrip (ls.getD (i + 1) "")) := by
  intro ls
  induction ls with
  | nil => intro d h; cases h
  | cons l rest ih =>
    cases rest with
    | nil => intro d h; cases h
    | cons next rest2 =>
      intro d h
      by_cases hh : elgatoPairHit l next = true
      · rw [scanLines, if_pos hh] at h
        injection h with h
        refine ⟨0, ?_, ?_, ?_⟩
        · rw [hitAt_cons_cons_zero]; exact hh
        · intro j hj; exact absurd hj (Nat.not_lt_zero j)
        · simp only [List.getD_cons_succ, List.getD_cons_zero]
          exact h.symm
      · rw [scanLines, if_neg hh] at h
        obtain ⟨i, h1, h2, h3⟩ := ih d h
        have h' : elgatoPairHit l next = false := by
          cases hhh : elgatoPairHit l next
          · rfl
          · exact absurd hhh hh
        refine ⟨i + 1, ?_, ?_, ?_⟩
        · rw [hitAt_cons_succ]; exact h1
        · intro j hj
          cases j with
          | zero => rw [hitAt_cons_cons_zero]; exact h'
          | succ j2 =>
            rw [hitAt_cons_succ]
            exact h2 j2 (by omega)
        · simp only [List.getD_cons_succ]
          exact h3

/-- C3 counterexample: an enumeration output whose product-name line is
followed by an empty line, with the device path on the line after that.
The name occurs, the next non-empty line after it starts with the
device-path marker, yet `detect_elgato_camera` returns `None` — the
code only inspects the line immediately after the name line. -/
theorem claim_C3_counterexample :
    strContains ((pySplit '\n' ex3).getD 0 "") "Elgato Facecam" = true ∧
    ((pySplit '\n' ex3).drop 1).find? (fun l => decide (l ≠ ""))
      = some "/dev/video0" ∧
    pyStartswith "/dev/video0" "/dev/video" = true ∧
    detect_elgato_camera (RunOutcome.completed 0 ex3) = none := by decide

/-- C3 amended: `detect_elgato_camera` returns a device path exactly
when, on a zero exit code, some line of the output contains the product
name and the line immediately after it, stripped, begins with
`/dev/video`; the result is the first token of the (stripped) line
after the first such occurrence. If the pattern is absent, the command
exits non-zero, or it times out or raises, the call returns `None`
without raising. -/
theorem claim_C3_detect :
    (detect_elgato_camera RunOutcome.raised = none) ∧
    (∀ rc out, rc ≠ 0 → detect_elgato_camera (RunOutcome.completed rc out) = none) ∧
    (∀ out, detect_elgato_camera (RunOutcome.completed 0 out) = none ↔
      ∀ i, hitAt (pySplit '\n' out) i = false) ∧
    (∀ out d, detect_elgato_camera (RunOutcome.completed 0 out) = some d →
      ∃ i, hitAt (pySplit '\n' out) i = true ∧
        (∀ j, j < i → hitAt (pySplit '\n' out) j = false) ∧
        d = firstToken (pyStrip ((pySplit '\n' out).getD (i + 1) ""))) := by
  refine ⟨rfl, ?_, ?_, ?_⟩
  · intro rc out h
    simp [detect_elgato_camera, h]
  · intro out
    show scanLines (pySplit '\n' out) = none ↔ _
    exact scanLines_eq_none_iff _
  · intro out d h
    exact scanLines_eq_some _ d h

/-- Witness for C3 amended: a non-zero exit yields `None`; a well-shaped
two-line output yields the adjacent-pair pattern. -/
theorem claim_C3_detect_witness :
    detect_elgato_camera (RunOutcome.completed 1 "Elgato Facecam\n/dev/video0")
      = none ∧
    ∃ i,
      hitAt (pySplit '\n' "Elgato Facecam (usb-0000:00:14.0-2):\n\t/dev/video0")
          i = true ∧
      (∀ j, j < i →
        hitAt (pySplit '\n' "Elgato Facecam (usb-0000:00:14.0-2):\n\t/dev/video0")
          j = false) ∧
      "/dev/video0" = firstToken (pyStrip
        ((pySplit '\n' "Elgato Facecam (usb-0000:00:14.0-2):\n\t/dev/video0").getD
          (i + 1) "")) :=
  ⟨claim_C3_detect.2.1 1 "Elgato Facecam\n/dev/video0" (by decide),
   claim_C3_detect.2.2.2 "Elgato Facecam (usb-0000:00:14.0-2):\n\t/dev/video0"
     "/dev/video0" rfl⟩

end VirtualCam
